import Mathlib

/-!
Verification of the `downloadcache` server (Go): a request-coalescing,
disk-backed fetch cache. We shallowly embed the source functions
(`sanitizeURLForFilename`, `readFromCache`, `writeToCache`, `Get`,
`downloadAndCache`, and the `urlLocks` registry protocol) as Lean
definitions over byte lists (`List Nat`, each element a byte value), and
settle the specification's claims against them.
-/

namespace DownloadCache

/-! ## Bytes -/

/-- A byte list is well-formed when every element is below 256. -/
def ByteList (s : List Nat) : Prop := ∀ c ∈ s, c < 256

instance : DecidablePred ByteList := fun s =>
  inferInstanceAs (Decidable (∀ c ∈ s, c < 256))

/-! ## gzip stream model

`readFromCache` / `writeToCache` use Go's `compress/gzip` standard library.
That library is external to this repository, so it is modelled from its
documented contract: `gzip.NewWriter`+`Close` emits a framed stream that
begins with the gzip magic bytes 31, 139 and ends with a trailer recording
the payload length and a checksum; a reader (`gzip.NewReader` + `io.ReadAll`)
fully validates the frame and fails on missing, malformed or truncated
streams, and round-trips the payload losslessly. The payload is kept verbatim
here (the deflate entropy coding is irrelevant to every claim). -/

/-- Model of the compressed stream written by `gzip.NewWriter`:
magic header, payload, then a trailer with payload length and checksum. -/
def gzipCompress (b : List Nat) : List Nat :=
  31 :: 139 :: (b ++ [b.length, b.sum % 65536])

/-- Model of `gzip.NewReader` + `io.ReadAll`: validate the magic header and
the trailer, returning the payload only when the whole frame checks out;
`none` models the error returned on a missing/short/corrupt stream. -/
def gzipDecompress (f : List Nat) : Option (List Nat) :=
  match f with
  | m1 :: m2 :: rest =>
    if m1 = 31 ∧ m2 = 139 then
      match rest.reverse with
      | chk :: len :: revPayload =>
        if revPayload.length = len ∧ revPayload.reverse.sum % 65536 = chk then
          some revPayload.reverse
        else none
      | _ => none
    else none
  | _ => none

/-! ## Persisted artifact store

A cache entry for one key is `Option (List Nat)`: `none` when the file is
absent (`os.Stat` fails), `some f` when the file currently holds bytes `f`. -/

/-- Errors surfaced by the server (gRPC status codes used in the source). -/
inductive GErr
  | invalidArgument
  | internal
deriving DecidableEq, Repr

/-- `readFromCache` (source lines: open the file, `gzip.NewReader`,
`io.ReadAll`): errors when the file is absent or the stream is invalid,
otherwise returns the decompressed content. Go's `string(content)` is
byte-preserving, so the result stays a byte list. -/
def readFromCache (blob : Option (List Nat)) : Except Unit (List Nat) :=
  match blob with
  | none => .error ()
  | some f =>
    match gzipDecompress f with
    | some c => .ok c
    | none => .error ()

/-- The file contents left by a successful `writeToCache(path, content)`:
the gzip-compressed stream of `content`. -/
def writeToCache (content : List Nat) : List Nat :=
  gzipCompress content

/-- A keyed view of the store: `writeToCache` at key `k`. -/
def storeWrite (st : Nat → Option (List Nat)) (k : Nat) (b : List Nat) :
    Nat → Option (List Nat) :=
  fun k2 => if k2 = k then some (writeToCache b) else st k2

/-- A keyed view of the store: `readFromCache` at key `k`. -/
def storeRead (st : Nat → Option (List Nat)) (k : Nat) : Except Unit (List Nat) :=
  readFromCache (st k)

/-! ## Cache key derivation

`sanitizeURLForFilename(rawURL)` is `url.PathEscape(rawURL)`. We embed Go's
`net/url` escaping byte-for-byte: `shouldEscape` with mode `encodePathSegment`
decides which bytes are percent-encoded, and encoding uses the upper-case hex
table `"0123456789ABCDEF"`. -/

/-- Go `net/url.shouldEscape(c, encodePathSegment)`: alphanumerics and
`- _ . ~` stay; of the reserved set `$ & + , / : ; = ? @` exactly
`/ ; , ?` are escaped in a path segment; every other byte is escaped. -/
def shouldEscape (c : Nat) : Bool :=
  if (97 ≤ c && c ≤ 122) || (65 ≤ c && c ≤ 90) || (48 ≤ c && c ≤ 57) then false
  else if c = 45 || c = 95 || c = 46 || c = 126 then false
  else if c = 36 || c = 38 || c = 43 || c = 44 || c = 47 || c = 58 || c = 59 ||
          c = 61 || c = 63 || c = 64 then
    c = 47 || c = 59 || c = 44 || c = 63
  else true

/-- Go's `upperhex` table `"0123456789ABCDEF"` indexed by a nibble. -/
def upperHexDigit (n : Nat) : Nat :=
  if n < 10 then 48 + n else 55 + n

/-- One byte of `url.escape`: either the byte itself or `%XX`. -/
def escByte (c : Nat) : List Nat :=
  if shouldEscape c then [37, upperHexDigit (c / 16), upperHexDigit (c % 16)] else [c]

/-- Go `url.PathEscape` on a byte string. -/
def pathEscape (s : List Nat) : List Nat :=
  s.flatMap escByte

/-- `sanitizeURLForFilename` from the source: exactly `url.PathEscape`. -/
def sanitizeURLForFilename (rawURL : List Nat) : List Nat :=
  pathEscape rawURL

/-- Value of an upper-case hex digit character (used only to invert
`upperHexDigit` in proofs). -/
def fromHexDigit (d : Nat) : Nat :=
  if 65 ≤ d then d - 55 else d - 48

/-- A decoder for percent-escaped byte strings; it inverts `pathEscape`
and witnesses its injectivity. -/
def pathUnescape : List Nat → List Nat
  | [] => []
  | c :: rest =>
    if c = 37 then
      match rest with
      | h :: l :: rest2 => (16 * fromHexDigit h + fromHexDigit l) :: pathUnescape rest2
      | _ => []
    else c :: pathUnescape rest

/-! ## Fetch-transform pipeline (`downloadAndCache`) and orchestrator (`Get`)

Sequential embedding of one request against one key's cache entry. The
external collaborators (HTTP fetch / Selenium navigation, the minifier, and
the writability of the store) enter as an environment record; the source
consults them in the order: fetch transport, status code, body read,
minify, cache write. -/

/-- Outcome of the external fetch: a transport/navigation error, or a
response with a status code and a body whose read may itself fail
(`io.ReadAll` error modelled as `none`). -/
inductive FetchOutcome
  | transportErr
  | response (statusCode : Nat) (body : Option (List Nat))
deriving DecidableEq, Repr

/-- The external collaborators of one request. `transformOk = false` models
`s.minifier.Bytes` returning an error; `transformFn` is the minified output
when it succeeds. `writeOk = false` models `writeToCache` failing (e.g.
`os.Create` on an unwritable backend), leaving the entry unchanged. -/
structure Env where
  fetch : FetchOutcome
  transformOk : Bool
  transformFn : List Nat → List Nat
  writeOk : Bool

deriving instance DecidableEq for Except

/-- Result of one request: the gRPC reply or error, the key's cache entry
afterwards, and how many times the fetcher, the transformer and the cache
write were invoked. -/
structure RunOut where
  result : Except GErr (List Nat)
  cache : Option (List Nat)
  fetchCalls : Nat
  transformCalls : Nat
  writeCalls : Nat
deriving DecidableEq, Repr

/-- The fetch-transform-store section of `downloadAndCache` (after the
double-check missed): HTTP GET / navigation, status check, body read,
minify with fall-back to the raw bytes, then `writeToCache` whose failure
is logged but not propagated. -/
def fetchPath (cache : Option (List Nat)) (env : Env) : RunOut :=
  match env.fetch with
  | .transportErr => ⟨.error .internal, cache, 1, 0, 0⟩
  | .response st body? =>
    if st ≠ 200 then ⟨.error .internal, cache, 1, 0, 0⟩
    else
      match body? with
      | none => ⟨.error .internal, cache, 1, 0, 0⟩
      | some body =>
        let minified := if env.transformOk then env.transformFn body else body
        if env.writeOk then ⟨.ok minified, some (writeToCache minified), 1, 1, 1⟩
        else ⟨.ok minified, cache, 1, 1, 1⟩

/-- `downloadAndCache` body as run under the key's lock: the post-lock
double-check (`os.Stat` + `readFromCache`; any failure falls through),
then the fetch path. -/
def downloadAndCache (cache : Option (List Nat)) (env : Env) : RunOut :=
  match readFromCache cache with
  | .ok content => ⟨.ok content, cache, 0, 0, 0⟩
  | .error _ => fetchPath cache env

/-- `Get`: reject an empty URL; unless invalidation was requested, probe the
store (a read failure is treated as a miss); on miss or invalidation,
delegate to `downloadAndCache`. -/
def GetM (url : List Nat) (invalidate : Bool) (cache : Option (List Nat))
    (env : Env) : RunOut :=
  if url = [] then ⟨.error .invalidArgument, cache, 0, 0, 0⟩
  else if invalidate then downloadAndCache cache env
  else
    match readFromCache cache with
    | .ok content => ⟨.ok content, cache, 0, 0, 0⟩
    | .error _ => downloadAndCache cache env

/-! ## The file during `writeToCache`

`writeToCache` opens the destination with `os.Create`, which truncates the
existing file in place; the gzip writer buffers and the deferred `Close`
flushes the complete compressed stream. The observable file states of a
write of `new` over a file holding `gzipCompress old` are therefore:
before `Create`, after the truncation, and after the flush. -/

/-- File contents observable at each point of `writeToCache(path, new)`
over an entry currently holding the compressed form of `old`. -/
def writeToCacheStates (old new : List Nat) : List (List Nat) :=
  [gzipCompress old, [], gzipCompress new]

/-- The file as seen by a reader that interleaves at point `j` of the write
(`j = 0`: before; `j = 1`: after the in-place truncation; `j ≥ 2`: after
the final flush). -/
def fileDuringWrite (old new : List Nat) (j : Nat) : List Nat :=
  (writeToCacheStates old new).getD j (gzipCompress new)

/-! ## The `urlLocks` registry protocol

Interleaving model of `downloadAndCache`'s locking for one URL.  Each
goroutine runs, in order: `urlLocks.LoadOrStore(rawURL, &sync.Mutex{})`,
`mutex.Lock()`, the double-check, the fetch (outcome fixed per goroutine;
a successful fetch also writes the cache entry), and then the deferred
calls in LIFO order: `s.urlLocks.Delete(rawURL)` first, `mutex.Unlock()`
second.  Mutex instances are numbered from 1; `reg` is the map entry for
the URL; `locked` is the set of currently-held mutex instances. -/

/-- Program counter of one goroutine inside `downloadAndCache`. -/
inductive PC
  | load
  | lockW
  | check
  | fetching
  | afterFetch
  | exitDel
  | exitUnlock
  | done
deriving DecidableEq, Repr

/-- One goroutine: its program counter, the mutex instance it obtained from
`LoadOrStore` (0 before that), and whether its fetch will succeed. -/
structure Goro where
  pc : PC
  mu : Nat
  fetchOk : Bool
deriving DecidableEq, Repr

/-- Shared state: the `urlLocks` entry for this URL, the held mutex
instances, a fresh-instance counter, whether the cache entry exists and is
readable, and the goroutines. -/
structure SFState where
  reg : Option Nat
  locked : List Nat
  nextId : Nat
  cached : Bool
  gs : List Goro
deriving DecidableEq, Repr

/-- One atomic step of goroutine `i`; `none` when `i` is absent, blocked on
a held mutex, or finished. `LoadOrStore` atomically returns the existing
instance or installs a fresh one; `Delete` removes the key's entry
unconditionally; `Unlock` releases the goroutine's own instance. -/
def stepG (s : SFState) (i : Nat) : Option SFState :=
  match s.gs[i]? with
  | none => none
  | some g =>
    match g.pc with
    | .load =>
      match s.reg with
      | some m => some { s with gs := s.gs.set i { g with pc := .lockW, mu := m } }
      | none =>
        some { s with reg := some s.nextId, nextId := s.nextId + 1,
                      gs := s.gs.set i { g with pc := .lockW, mu := s.nextId } }
    | .lockW =>
      if g.mu ∈ s.locked then none
      else some { s with locked := g.mu :: s.locked,
                         gs := s.gs.set i { g with pc := .check } }
    | .check =>
      if s.cached then some { s with gs := s.gs.set i { g with pc := .exitDel } }
      else some { s with gs := s.gs.set i { g with pc := .fetching } }
    | .fetching =>
      some { s with gs := s.gs.set i { g with pc := .afterFetch } }
    | .afterFetch =>
      some { s with cached := s.cached || g.fetchOk,
                    gs := s.gs.set i { g with pc := .exitDel } }
    | .exitDel =>
      some { s with reg := none, gs := s.gs.set i { g with pc := .exitUnlock } }
    | .exitUnlock =>
      some { s with locked := s.locked.erase g.mu,
                    gs := s.gs.set i { g with pc := .done } }
    | .done => none

/-- Run a schedule: at each entry, the named goroutine takes one step. -/
def runSF (s : SFState) : List Nat → Option SFState
  | [] => some s
  | i :: rest =>
    match stepG s i with
    | some s2 => runSF s2 rest
    | none => none

/-- Initial state for goroutines with the given fetch outcomes, all about
to call `downloadAndCache` for the same URL, cache entry absent. -/
def initSF (fos : List Bool) : SFState :=
  { reg := none, locked := [], nextId := 1, cached := false,
    gs := fos.map (fun fo => { pc := .load, mu := 0, fetchOk := fo }) }

/-- Number of goroutines whose fetch invocation is currently in flight. -/
def fetchingCount (s : SFState) : Nat :=
  (s.gs.filter (fun g => g.pc = .fetching)).length

/-! # Theorems -/

set_option maxRecDepth 8000

/-- The gzip frame model is lossless. -/
theorem gzip_roundtrip (b : List Nat) : gzipDecompress (gzipCompress b) = some b := by
  unfold gzipCompress gzipDecompress
  simp

/-- Reading an entry that holds a well-formed compressed stream yields its
payload. -/
theorem readFromCache_compressed (b : List Nat) :
    readFromCache (some (gzipCompress b)) = .ok b := by
  unfold readFromCache
  simp [gzip_roundtrip]

/-- Claim C4: Round-trip — for every key `k` and every byte sequence `b`,
`Store.Read(k)` after a successful `Store.Write(k, b)` (no intervening write
to `k`) returns exactly `b`; compression/decompression is lossless. -/
theorem c4_store_roundtrip (st : Nat → Option (List Nat)) (k : Nat) (b : List Nat) :
    storeRead (storeWrite st k b) k = .ok b := by
  unfold storeRead storeWrite writeToCache
  simp [readFromCache_compressed]

/-- The upper-hex encoding of a nibble is inverted by `fromHexDigit`. -/
theorem fromHexDigit_upperHexDigit : ∀ n < 16, fromHexDigit (upperHexDigit n) = n := by
  decide

/-- A byte that `shouldEscape` leaves unescaped is not the percent sign. -/
theorem unescaped_ne_37 (c : Nat) (h : shouldEscape c = false) : c ≠ 37 := by
  intro hc
  subst hc
  exact absurd h (by decide)

/-- A byte that `shouldEscape` leaves unescaped is not the path separator. -/
theorem unescaped_ne_47 (c : Nat) (h : shouldEscape c = false) : c ≠ 47 := by
  intro hc
  subst hc
  exact absurd h (by decide)

/-- Upper-hex digit characters are never the path separator. -/
theorem upperHexDigit_ne_47 (n : Nat) : upperHexDigit n ≠ 47 := by
  unfold upperHexDigit
  split <;> omega

/-- `pathUnescape` consumes a percent triple. -/
theorem pathUnescape_esc (h l : Nat) (rest : List Nat) :
    pathUnescape (37 :: h :: l :: rest) =
      (16 * fromHexDigit h + fromHexDigit l) :: pathUnescape rest := by
  rfl

/-- `pathUnescape` passes a non-percent byte through. -/
theorem pathUnescape_plain (c : Nat) (hc : c ≠ 37) (rest : List Nat) :
    pathUnescape (c :: rest) = c :: pathUnescape rest := by
  conv_lhs => rw [pathUnescape.eq_def]
  simp [hc]

/-- `pathUnescape` inverts `pathEscape` on byte strings. -/
theorem pathUnescape_pathEscape (s : List Nat) (hs : ByteList s) :
    pathUnescape (pathEscape s) = s := by
  induction s with
  | nil => rfl
  | cons c t ih =>
    have hc : c < 256 := hs c (List.mem_cons_self c t)
    have ht : ByteList t := fun x hx => hs x (List.mem_cons_of_mem c hx)
    by_cases h : shouldEscape c
    · have h1 : pathEscape (c :: t) =
          37 :: upperHexDigit (c / 16) :: upperHexDigit (c % 16) :: pathEscape t := by
        simp [pathEscape, escByte, h]
      rw [h1, pathUnescape_esc, ih ht]
      have hdiv : c / 16 < 16 := by omega
      have hmod : c % 16 < 16 := by omega
      rw [fromHexDigit_upperHexDigit (c / 16) hdiv, fromHexDigit_upperHexDigit (c % 16) hmod]
      have : 16 * (c / 16) + c % 16 = c := by omega
      rw [this]
    · have h0 : shouldEscape c = false := by simpa using h
      have h1 : pathEscape (c :: t) = c :: pathEscape t := by
        simp [pathEscape, escByte, h0]
      rw [h1, pathUnescape_plain c (unescaped_ne_37 c h0), ih ht]

/-- One escaped byte contributes no path separator byte. -/
theorem escByte_no_slash (c : Nat) : 47 ∉ escByte c := by
  unfold escByte
  by_cases h : shouldEscape c
  · rw [if_pos h]
    intro hmem
    rcases List.mem_cons.mp hmem with h1 | hmem
    · omega
    rcases List.mem_cons.mp hmem with h1 | hmem
    · exact upperHexDigit_ne_47 (c / 16) h1.symm
    rcases List.mem_cons.mp hmem with h1 | hmem
    · exact upperHexDigit_ne_47 (c % 16) h1.symm
    · simp at hmem
  · rw [if_neg h]
    intro hmem
    rcases List.mem_cons.mp hmem with h1 | hmem
    · exact unescaped_ne_47 c (by simpa using h) h1.symm
    · simp at hmem

/-- `pathEscape` emits no path separator byte. -/
theorem pathEscape_no_slash (s : List Nat) : 47 ∉ pathEscape s := by
  intro hmem
  unfold pathEscape at hmem
  rw [List.mem_flatMap] at hmem
  obtain ⟨c, _, hc⟩ := hmem
  exact escByte_no_slash c hc

/-- Claim C5: Cache-key derivation — `sanitizeURLForFilename` is a pure total
function on identifier byte strings (determinism is definitional for a Lean
function), is injective on byte strings, and its output never contains the
path-separator byte 47, so it is usable as a single path segment. -/
theorem c5_key_derivation :
    (∀ s1 s2, ByteList s1 → ByteList s2 →
      (sanitizeURLForFilename s1 = sanitizeURLForFilename s2 ↔ s1 = s2)) ∧
    (∀ s, 47 ∉ sanitizeURLForFilename s) := by
  constructor
  · intro s1 s2 h1 h2
    constructor
    · intro heq
      have := congrArg pathUnescape heq
      unfold sanitizeURLForFilename at this
      rwa [pathUnescape_pathEscape s1 h1, pathUnescape_pathEscape s2 h2] at this
    · intro heq
      rw [heq]
  · intro s
    unfold sanitizeURLForFilename
    exact pathEscape_no_slash s

/-- Witness for claim C5 at the concrete identifiers [104, 47] ("h/") and
[104] ("h"). -/
theorem c5_key_derivation_witness :
    (sanitizeURLForFilename [104, 47] = sanitizeURLForFilename [104] ↔
      ([104, 47] : List Nat) = [104]) ∧
    47 ∉ sanitizeURLForFilename [104, 47] :=
  ⟨c5_key_derivation.1 [104, 47] [104] (by decide) (by decide),
   c5_key_derivation.2 [104, 47]⟩

/-- Claim C6 counterexample: the external fetch returns a success status
(200) with EMPTY content, yet `Get` on a miss succeeds (`.ok []`) and writes
a cache entry — the claimed `FetchError` on "empty content after a success
signal" does not exist in the code (there is no emptiness check after
`io.ReadAll` / `PageSource`). -/
theorem c6_counterexample :
    GetM [104] false none ⟨.response 200 (some []), true, id, true⟩ =
      ⟨.ok [], some (gzipCompress []), 1, 1, 1⟩ := by
  rfl

/-- Claim C6 amended: the pipeline fails with a `FetchError` (gRPC
`Internal`) — aborting with the cache entry unchanged and with no transform
or write invoked — exactly when the fetch transport errors, the response
status is non-success, or the body read fails; empty content after a
success signal is treated as valid content, not as an error. -/
theorem c6_amended_fetch_failures (cache : Option (List Nat)) (env : Env)
    (hmiss : readFromCache cache = .error ())
    (h : env.fetch = .transportErr ∨
      ∃ st b?, env.fetch = .response st b? ∧ (st ≠ 200 ∨ b? = none)) :
    downloadAndCache cache env = ⟨.error .internal, cache, 1, 0, 0⟩ := by
  unfold downloadAndCache
  rw [hmiss]
  unfold fetchPath
  rcases h with h | ⟨st, b?, h, hbad⟩
  · rw [h]
  · rw [h]
    rcases hbad with hst | hb
    · simp [hst]
    · subst hb
      by_cases hst : st = 200 <;> simp [hst]

/-- Witness for claim C6 (amended) at a concrete transport error on an
absent cache entry. -/
theorem c6_amended_fetch_failures_witness :
    downloadAndCache none ⟨.transportErr, true, id, true⟩ =
      ⟨.error .internal, none, 1, 0, 0⟩ :=
  c6_amended_fetch_failures none ⟨.transportErr, true, id, true⟩ rfl (Or.inl rfl)

/-- Claim C7: Fail-open transform — on a cache miss with a successful fetch,
if the Transformer errors, `Get` still succeeds with no error, returns the
raw untransformed fetched bytes, and writes a cache entry containing those
raw bytes (compressed). -/
theorem c7_fail_open_transform (url body : List Nat) (cache : Option (List Nat))
    (tf : List Nat → List Nat) (inv : Bool)
    (hurl : url ≠ []) (hmiss : readFromCache cache = .error ()) :
    GetM url inv cache ⟨.response 200 (some body), false, tf, true⟩ =
      ⟨.ok body, some (writeToCache body), 1, 1, 1⟩ := by
  unfold GetM downloadAndCache fetchPath
  cases inv <;> simp [hurl, hmiss]

/-- Witness for claim C7 at a concrete miss with raw body [1, 2]. -/
theorem c7_fail_open_transform_witness :
    GetM [104] false none ⟨.response 200 (some [1, 2]), false, id, true⟩ =
      ⟨.ok [1, 2], some (writeToCache [1, 2]), 1, 1, 1⟩ :=
  c7_fail_open_transform [104] [1, 2] none id false (by decide) rfl

/-- Claim C8: Non-fatal store-write failure — on a cache miss where fetch
and transform complete, if the store write fails, `Get` still returns the
freshly fetched (and possibly transformed) content with no error, and the
entry is left as it was. -/
theorem c8_write_failure_nonfatal (url body : List Nat) (cache : Option (List Nat))
    (tOk : Bool) (tf : List Nat → List Nat) (inv : Bool)
    (hurl : url ≠ []) (hmiss : readFromCache cache = .error ()) :
    GetM url inv cache ⟨.response 200 (some body), tOk, tf, false⟩ =
      ⟨.ok (if tOk then tf body else body), cache, 1, 1, 1⟩ := by
  unfold GetM downloadAndCache fetchPath
  cases inv <;> simp [hurl, hmiss]

/-- Witness for claim C8 at a concrete miss with a successful transform. -/
theorem c8_write_failure_nonfatal_witness :
    GetM [104] false none ⟨.response 200 (some [1, 2]), true, List.reverse, false⟩ =
      ⟨.ok (if true then List.reverse [1, 2] else [1, 2]), none, 1, 1, 1⟩ :=
  c8_write_failure_nonfatal [104] [1, 2] none true List.reverse false (by decide) rfl

/-- Claim C9 counterexample: with an existing readable cache entry for the
identifier and a fetch that would fail, `Get(id, true)` does NOT fail with a
`FetchError`: the post-lock double-check returns the cached content
successfully and the fetcher is never invoked (0 fetch calls). -/
theorem c9_counterexample :
    GetM [104] true (some (gzipCompress [1])) ⟨.transportErr, true, id, true⟩ =
      ⟨.ok [1], some (gzipCompress [1]), 0, 0, 0⟩ := by
  rfl

/-- Claim C9 amended: for every identifier with an existing READABLE cache
entry, `Get(id, true)` when the external fetch would fail returns the cached
content with no error — the request does not fail with a `FetchError` — and
the pre-existing entry is left untouched (neither deleted nor overwritten),
with the fetcher never invoked. -/
theorem c9_amended_double_check_overrides (url blob b : List Nat) (env : Env)
    (hurl : url ≠ []) (hread : gzipDecompress blob = some b)
    (_hfetch : env.fetch = .transportErr) :
    GetM url true (some blob) env = ⟨.ok b, some blob, 0, 0, 0⟩ := by
  unfold GetM downloadAndCache readFromCache
  simp [hurl, hread]

/-- Witness for claim C9 (amended) at a concrete readable entry holding
payload [1]. -/
theorem c9_amended_double_check_overrides_witness :
    GetM [104] true (some (gzipCompress [1])) ⟨.transportErr, false, id, false⟩ =
      ⟨.ok [1], some (gzipCompress [1]), 0, 0, 0⟩ :=
  c9_amended_double_check_overrides [104] (gzipCompress [1]) [1]
    ⟨.transportErr, false, id, false⟩ (by decide) (by rfl) rfl

/-- Claim C10: for every identifier with an existing, readable cache entry,
`Get(id, true)` returns the stored (decompressed) cached content via the
post-lock double-check, without invoking the external fetch, transform, or
store-write operations at all — for ANY behavior of the external
collaborators. -/
theorem c10_invalidate_double_check (url blob b : List Nat) (env : Env)
    (hurl : url ≠ []) (hread : gzipDecompress blob = some b) :
    GetM url true (some blob) env = ⟨.ok b, some blob, 0, 0, 0⟩ := by
  unfold GetM downloadAndCache readFromCache
  simp [hurl, hread]

/-- Witness for claim C10 at a concrete readable entry holding payload
[1, 2] and a fetch that would succeed with different content. -/
theorem c10_invalidate_double_check_witness :
    GetM [104] true (some (gzipCompress [1, 2]))
        ⟨.response 200 (some [9]), true, id, true⟩ =
      ⟨.ok [1, 2], some (gzipCompress [1, 2]), 0, 0, 0⟩ :=
  c10_invalidate_double_check [104] (gzipCompress [1, 2]) [1, 2]
    ⟨.response 200 (some [9]), true, id, true⟩ (by decide) (by rfl)

/-- Claim C2 counterexample: with the entry previously holding the complete
blob for payload [1], and a `writeToCache` of payload [2] in progress, a
read interleaved just after `os.Create` truncated the file (point 1) returns
neither the previous complete blob nor the new complete blob — it fails,
observing the in-place truncation. -/
theorem c2_counterexample :
    readFromCache (some (fileDuringWrite [1] [2] 1)) ≠ .ok [1] ∧
    readFromCache (some (fileDuringWrite [1] [2] 1)) ≠ .ok [2] ∧
    readFromCache (some (fileDuringWrite [1] [2] 1)) = .error () := by
  decide

/-- Claim C2 amended: `writeToCache` truncates the destination in place
(`os.Create`), so a concurrent `Read(key)` during a `Write(key, content)`
returns the previous complete blob, the new complete blob, OR fails with an
error (it can observe the truncated in-progress file); because decompression
validates the stream, a reader never receives partially-written content as
successful data. -/
theorem c2_amended_read_old_new_or_error (old new : List Nat) (j : Nat) :
    readFromCache (some (fileDuringWrite old new j)) = .ok old ∨
    readFromCache (some (fileDuringWrite old new j)) = .ok new ∨
    readFromCache (some (fileDuringWrite old new j)) = .error () := by
  match j with
  | 0 =>
    left
    show readFromCache (some (gzipCompress old)) = _
    exact readFromCache_compressed old
  | 1 =>
    right; right
    rfl
  | 2 =>
    right; left
    show readFromCache (some (gzipCompress new)) = _
    exact readFromCache_compressed new
  | (n + 3) =>
    right; left
    show readFromCache (some ((writeToCacheStates old new).getD (n + 3) (gzipCompress new))) = _
    rw [List.getD_eq_default]
    · exact readFromCache_compressed new
    · simp [writeToCacheStates]

/-- Claim C3 counterexample: in the registry model, after the first caller
finishes its cycle up to the deferred `urlLocks.Delete` (schedule
[0, 1, 0, 0, 0, 0, 0]), the key's registry entry is already removed
(`reg = none`) although the holder has NOT yet released the mutex
(goroutine 0 is at the unlock step and instance 1 is still held) and
another caller IS currently referencing that entry (goroutine 1 loaded
instance 1 and is waiting on it) — refuting "removes the entry only after
the holder releases it and only if no other caller references it". -/
theorem c3_counterexample :
    (runSF (initSF [false, true, true]) [0, 1, 0, 0, 0, 0, 0]).map
        (fun s => (s.reg, s.locked, s.gs.map Goro.pc, s.gs.map Goro.mu)) =
      some (none, [1], [.exitUnlock, .lockW, .load], [1, 1, 0]) := by
  rfl

/-- Claim C3 amended: on every exit path of the locked section the
coordinator runs the two deferred calls in LIFO order: it first removes the
key's registry entry unconditionally — before the holder releases the mutex
and regardless of whether another caller is referencing the entry — and only
then releases the mutex (the release itself is unconditional). -/
theorem c3_amended_exit_protocol (s : SFState) (i : Nat) (g : Goro)
    (hg : s.gs[i]? = some g) (hpc : g.pc = .exitDel) :
    ∃ s2 s3, stepG s i = some s2 ∧ stepG s2 i = some s3 ∧
      s2.reg = none ∧ s2.locked = s.locked ∧
      s3.locked = s.locked.erase g.mu ∧
      s3.gs[i]? = some { g with pc := .done } := by
  have hlen : i < s.gs.length := by
    by_contra hge
    rw [List.getElem?_eq_none (Nat.le_of_not_lt hge)] at hg
    cases hg
  have hlen2 : i < (s.gs.set i { g with pc := .exitUnlock }).length := by
    rwa [List.length_set]
  have h1 : stepG s i = some { s with reg := none, gs := s.gs.set i { g with pc := PC.exitUnlock } } := by
    simp only [stepG, hg, hpc]
  have h2 : stepG { s with reg := none, gs := s.gs.set i { g with pc := PC.exitUnlock } } i = some { s with reg := none, locked := s.locked.erase g.mu, gs := (s.gs.set i { g with pc := PC.exitUnlock }).set i { g with pc := PC.done } } := by
    simp only [stepG, List.getElem?_set_eq_of_lt _ hlen]
  refine ⟨_, _, h1, h2, rfl, rfl, rfl, ?_⟩
  rw [List.getElem?_set_eq_of_lt _ hlen2]

/-- Witness for claim C3 (amended) at a concrete one-goroutine state whose
goroutine has reached the deferred-call section while holding instance 1. -/
theorem c3_amended_exit_protocol_witness :
    ∃ s2 s3,
      stepG ⟨some 1, [1], 2, false, [⟨.exitDel, 1, false⟩]⟩ 0 = some s2 ∧
      stepG s2 0 = some s3 ∧
      s2.reg = none ∧ s2.locked = [1] ∧
      s3.locked = List.erase [1] 1 ∧
      s3.gs[0]? = some ⟨.done, 1, false⟩ :=
  c3_amended_exit_protocol ⟨some 1, [1], 2, false, [⟨.exitDel, 1, false⟩]⟩ 0
    ⟨.exitDel, 1, false⟩ rfl rfl

/-- Claim C1: the single-flight guarantee fails. In the registry model,
after the schedule below (three concurrent `downloadAndCache` calls for the
same uncached URL, the first of which fetches and fails), TWO goroutines are
simultaneously inside the fetch — because the first caller's deferred
`urlLocks.Delete` removed the entry, the second caller locked the stale
mutex instance while the third obtained a fresh instance from `LoadOrStore`,
so both entered the critical section and invoked the fetcher concurrently,
contradicting the code's own comment that the lock ensures "only one
goroutine downloads a specific URL at a time". -/
theorem c1_single_flight_violated :
    (runSF (initSF [false, true, true])
        [0, 1, 0, 0, 0, 0, 0, 0, 1, 1, 2, 2, 2]).map fetchingCount = some 2 := by
  rfl

end DownloadCache
